import Mathlib

/-!
Verification of the botpom message-relay bot (src/bot.py, src/database.py,
src/handlers/user_handler.py, src/models/rate_limiter.py).

The development shallowly embeds the pure content of the Python code:
Python strings become `String`, Python ints become `Int` (arbitrary
precision in both languages), Python floats used only as timestamps become
`ℚ`, database tables become lists of records, and fallible code returns
`Option` / `Except`.  Configuration (`DIRECTIONS`, `ADMIN_CHATS`) is loaded
at startup from a module not present in the repository snapshot, so the
embedded functions take those tables as explicit read-only parameters.
-/

namespace Botpom

/-! ## Python string primitives

Executable embeddings of the Python `str` operations the bot relies on
(`split`, `replace`, `strip`, slicing, `in`, `int(...)`, `str.isdigit`).
They operate on the underlying character lists so that every proof can
evaluate by kernel reduction.  `str.isdigit` / `int` are modelled on the
ASCII digits, the only ones the bot's data contains. -/

/-- Python `s.split(sep)` for a single-character separator, on character
lists: `"".split` is `[""]`, separators at the ends produce empty parts. -/
def splitCharList (sep : Char) : List Char → List (List Char)
  | [] => [[]]
  | c :: rest =>
    if c = sep then [] :: splitCharList sep rest
    else
      match splitCharList sep rest with
      | [] => [[c]]
      | h :: t => (c :: h) :: t

/-- Python `s.split(sep)` for a one-character separator. -/
def pySplit (sep : Char) (s : String) : List String :=
  (splitCharList sep s.data).map String.mk

/-- Does `pat` occur as a contiguous sublist? (Python `pat in s`.) -/
def containsList (pat : List Char) : List Char → Bool
  | [] => pat.isEmpty
  | c :: rest => pat.isPrefixOf (c :: rest) || containsList pat rest

/-- Python `pat in s` substring test. -/
def pyContains (s pat : String) : Bool :=
  containsList pat.data s.data

/-- Fuel-driven core of Python `s.split(pat)` for a nonempty multi-character
separator; the fuel is the length of the list, enough for termination. -/
def splitStrAux (pat : List Char) : Nat → List Char → List (List Char)
  | _, [] => [[]]
  | 0, l => [l]
  | fuel + 1, c :: rest =>
    if pat.isPrefixOf (c :: rest) then
      [] :: splitStrAux pat fuel (List.drop (pat.length - 1) rest)
    else
      match splitStrAux pat fuel rest with
      | [] => [[c]]
      | h :: t => (c :: h) :: t

/-- Python `s.split(pat)` for a nonempty string separator. -/
def pySplitStr (pat s : String) : List String :=
  (splitStrAux pat.data s.data.length s.data).map String.mk

/-- Fuel-driven core of Python `s.replace(pat, rep)` (all occurrences,
left to right, nonempty pattern). -/
def replaceStrAux (pat rep : List Char) : Nat → List Char → List Char
  | _, [] => []
  | 0, l => l
  | fuel + 1, c :: rest =>
    if pat.isPrefixOf (c :: rest) then
      rep ++ replaceStrAux pat rep fuel (List.drop (pat.length - 1) rest)
    else
      c :: replaceStrAux pat rep fuel rest

/-- Python `s.replace(pat, rep)` for a nonempty string pattern. -/
def pyReplace (s pat rep : String) : String :=
  String.mk (replaceStrAux pat.data rep.data s.data.length s.data)

/-- Python `s.replace(old, new)` where both sides are single characters. -/
def pyReplaceChar (old new : Char) (s : String) : String :=
  String.mk (s.data.map fun c => if c = old then new else c)

/-- Python `s.replace(old, '')` for a single character `old`. -/
def pyRemoveChar (old : Char) (s : String) : String :=
  String.mk (s.data.filter fun c => c ≠ old)

/-- Python `s.strip()` (whitespace trimmed from both ends). -/
def pyStrip (s : String) : String :=
  String.mk
    (((s.data.dropWhile (·.isWhitespace)).reverse.dropWhile (·.isWhitespace)).reverse)

/-- Python slicing `s[:n]`. -/
def pyTake (n : Nat) (s : String) : String :=
  String.mk (s.data.take n)

/-- Python `s.startswith(pat)`. -/
def pyStartsWith (s pat : String) : Bool :=
  pat.data.isPrefixOf s.data

/-! Python's `str.isdigit` accepts every Unicode digit character, and
`int()` accepts exactly the decimal (category Nd) ones — so a field can
pass the `isdigit` guard and still make `int()` raise (the superscript
digits), or pass and convert with a non-ASCII value (e.g. the
Arabic-Indic digits).  The embedding fixes this classification on a
representative repertoire: the ASCII digits, the Arabic-Indic decimal
digits U+0660-0669 (`isdigit`-true and `int()`-convertible) and the
superscript digits (`isdigit`-true but rejected by `int()`).  Theorems
about the guarded conversions carry a `pyDigitModelled` hypothesis
restricting the text to characters whose Python digit status the model
captures. -/

/-- The decimal value `int()` assigns to a character, on the modelled
repertoire: ASCII digits and the Arabic-Indic digits; `none` elsewhere. -/
def pyDigitVal (c : Char) : Option Nat :=
  if c.isDigit then some (c.toNat - 48)
  else if 0x660 ≤ c.toNat ∧ c.toNat ≤ 0x669 then some (c.toNat - 0x660)
  else none

/-- The modelled `isdigit`-true characters that `int()` rejects: the
superscript digits. -/
def pyIsDigitOnly (c : Char) : Bool :=
  c = '¹' || c = '²' || c = '³' || c = '⁰' || c = '⁴' || c = '⁵' ||
    c = '⁶' || c = '⁷' || c = '⁸' || c = '⁹'

/-- Python `str.isdigit` on one character, on the modelled repertoire. -/
def pyIsDigitChar (c : Char) : Bool :=
  (pyDigitVal c).isSome || pyIsDigitOnly c

/-- Python `str.isdigit`: nonempty and every character a digit. -/
def pyIsDigit (s : String) : Bool :=
  !s.data.isEmpty && s.data.all pyIsDigitChar

/-- Characters whose Python digit status the model captures exactly:
all of ASCII plus the modelled digit repertoire. -/
def pyDigitModelled (c : Char) : Bool :=
  c.toNat < 128 || (pyDigitVal c).isSome || pyIsDigitOnly c

/-- `int()` applied to a string that passed the `isdigit` guard
(bot.py:270, 273): succeeds exactly when every character carries a decimal
value, computing the base-10 number; `none` models the `ValueError` a
superscript digit provokes, which no `try` at the call site catches. -/
def pyIntDigits (s : String) : Option Nat :=
  if s.data.all (fun c => (pyDigitVal c).isSome) then
    some (s.data.foldl (fun n c => 10 * n + (pyDigitVal c).getD 0) 0)
  else none

/-- UTF-8 byte length; the platform's 64-byte payload ceiling counts
bytes, not code points. -/
def utf8Len (s : String) : Nat :=
  (s.data.map Char.utf8Size).sum

/-- Numeric value of a list of ASCII digits. -/
def digitsToNat (ds : List Char) : Nat :=
  ds.foldl (fun n c => 10 * n + (c.toNat - 48)) 0

/-- Python `int(s)`: optional surrounding whitespace, optional sign, then a
nonempty run of digits; `none` models the `ValueError` every caller catches. -/
def pyInt (s : String) : Option Int :=
  let t := (pyStrip s).data
  match t with
  | '-' :: ds => if !ds.isEmpty && ds.all (·.isDigit) then some (-(digitsToNat ds : Int)) else none
  | '+' :: ds => if !ds.isEmpty && ds.all (·.isDigit) then some (digitsToNat ds : Int) else none
  | ds => if !ds.isEmpty && ds.all (·.isDigit) then some (digitsToNat ds : Int) else none

/-! ## Callback codec (bot.py)

`_parse_callback_data` (bot.py:106) is the shared decoder guard; the
encoders are the f-strings at bot.py:304, 310, 423-428, 573-574, 638-640. -/

/-- `ApplicationBot._parse_callback_data` (bot.py:106-115).  `none` input
models Python `None`; the function never raises: absent/short/underfull
tokens yield the distinguished `none` result. -/
def parse_callback_data (callback_data : Option String) (expected_parts : Nat) :
    Option (List String) :=
  match callback_data with
  | none => none
  | some s =>
    -- `if not callback_data or len(callback_data) < 10`: the empty string is
    -- falsy and also has length < 10, so one length test covers both.
    if s.length < 10 then none
    else
      let parts := pySplit '_' s
      if parts.length < expected_parts then none
      else some parts

/-- The feedback-button token
`fb_{yes|no}_{admin_chat_id}_{kp_message_id}_{offer_id}_{direction}_{client_short}`
(bot.py:427-428 with the literal `none` offer id, bot.py:573-574 with a
numeric one; `offer_id` arrives here already rendered to a string). -/
def feedback_callback_data (polarity : Bool) (admin_chat_id kp_message_id : Int)
    (offer_id direction client_short : String) : String :=
  (if polarity then "fb_yes_" else "fb_no_") ++ toString admin_chat_id ++ "_" ++
    toString kp_message_id ++ "_" ++ offer_id ++ "_" ++ direction ++ "_" ++ client_short

/-- The send-offer token `send_kp_{offer_id}_{user_id}` (bot.py:304, 632). -/
def send_kp_callback_data (offer_id user_id : Int) : String :=
  "send_kp_" ++ toString offer_id ++ "_" ++ toString user_id

/-- The pagination token `kp_page_{page}_{direction}_{user_id}`
(bot.py:310, 638, 640). -/
def kp_page_callback_data (page : Int) (direction : String) (user_id : Int) : String :=
  "kp_page_" ++ toString page ++ "_" ++ direction ++ "_" ++ toString user_id

/-- Sanitization of the parsed client company name in `handle_admin_response`
(bot.py:419): spaces to underscores, quotes/newlines/two emoji removed,
stripped, truncated to 15 characters. -/
def sanitize_client_info_admin (s : String) : String :=
  pyTake 15 (pyStrip (pyRemoveChar '🏢' (pyRemoveChar '📋' (pyRemoveChar '\r'
    (pyRemoveChar '\n' (pyRemoveChar '\'' (pyRemoveChar '"'
      (pyReplaceChar ' ' '_' s))))))))

/-- Sanitization of the client company name in `handle_send_kp`
(bot.py:563): same character cleanup, truncated to 8 characters, no strip. -/
def sanitize_client_info_kp (s : String) : String :=
  pyTake 8 (pyRemoveChar '\r' (pyRemoveChar '\n' (pyRemoveChar '\''
    (pyRemoveChar '"' (pyReplaceChar ' ' '_' s)))))

/-- `client_info[:5] if client_info else "unk"` (bot.py:423, 567). -/
def client_short_of (client_info : String) : String :=
  if client_info.isEmpty then "unk" else pyTake 5 client_info

/-- The six fields `handle_feedback` reads out of a feedback token
(bot.py:673-678). -/
structure FeedbackFields where
  feedback_type : String
  admin_chat_id : String
  kp_message_id : String
  offer_id : String
  direction : String
  client_short : String
deriving DecidableEq

/-- The decoding side of `handle_feedback` (bot.py:666-678): the shared
guard with 7 expected parts, then positional field extraction. -/
def decode_feedback (data : String) : Option FeedbackFields :=
  match parse_callback_data (some data) 7 with
  | none => none
  | some parts =>
    some { feedback_type := parts.getD 1 ""
           admin_chat_id := parts.getD 2 ""
           kp_message_id := parts.getD 3 ""
           offer_id := parts.getD 4 ""
           direction := parts.getD 5 ""
           -- `parts[6] if len(parts) > 6 else "unk"` (dead guard: ≥ 7 parts)
           client_short := if 6 < parts.length then parts.getD 6 "" else "unk" }

/-! ## Durable store (database.py)

Tables are embedded as lists of records; SQL `WHERE ... LIMIT 1` style
lookups become `List.find?`, inserts append. -/

/-- A row of `client_applications` (database.py:384-419, 478-516).  The
admin-message linkage columns are `NULL` until the notification is sent,
hence `Option`. -/
structure ClientApplication where
  user_id : Int
  direction : String
  company_name : String
  inn : String
  bank : String
  nds_rate : Int
  category : String
  payment_purpose : String
  amount : Int
  equipment_type : String
  description : String
  operation_type : String
  admin_message_id : Option Int
  admin_chat_id : Option String
deriving DecidableEq

/-- A row of `ready_offers` (database.py:275-308). -/
structure ReadyOffer where
  id : Int
  company_name : String
  inn : String
  direction : String
  payment_purpose : String
  bank : String
  min_amount : Int
  max_amount : Int
  commission : ℚ
  created_at : Int
deriving DecidableEq

/-- `KPDatabase.get_client_application_by_admin_message` (database.py:478):
`SELECT ... WHERE admin_message_id = ? AND admin_chat_id = ?`, first row. -/
def get_client_application_by_admin_message (apps : List ClientApplication)
    (admin_message_id : Int) (admin_chat_id : String) : Option ClientApplication :=
  apps.find? fun a =>
    a.admin_message_id == some admin_message_id && a.admin_chat_id == some admin_chat_id

/-- `KPDatabase.get_client_application_by_id` (database.py:421); row ids are
modelled by list position starting at 1 (sqlite rowids). -/
def get_client_application_by_id (apps : List ClientApplication) (app_id : Int) :
    Option ClientApplication :=
  if app_id ≤ 0 then none
  else apps.get? (app_id.toNat - 1)

/-- `KPDatabase.get_ready_offer_by_id` (database.py:310): first row with the
given id. -/
def get_ready_offer_by_id (offers : List ReadyOffer) (offer_id : Int) :
    Option ReadyOffer :=
  offers.find? fun o => o.id == offer_id

/-- Insert into a list sorted by `le` (structurally recursive so that
concrete queries evaluate by kernel reduction). -/
def insertLe {α : Type} (le : α → α → Bool) (x : α) : List α → List α
  | [] => [x]
  | y :: ys => if le x y then x :: y :: ys else y :: insertLe le x ys

/-- Insertion sort by `le`; models the SQL `ORDER BY`. -/
def sortLe {α : Type} (le : α → α → Bool) : List α → List α
  | [] => []
  | x :: xs => insertLe le x (sortLe le xs)

/-- `KPDatabase.get_ready_offers_by_direction` (database.py:275-308):
`WHERE direction = ? ORDER BY created_at DESC LIMIT ? OFFSET ?`. -/
def get_ready_offers_by_direction (offers : List ReadyOffer) (direction : String)
    (limit offset : Nat) : List ReadyOffer :=
  (((sortLe (fun a b => decide (b.created_at ≤ a.created_at))
      (offers.filter fun o => o.direction == direction)).drop offset).take limit)

/-! ## Application submission (bot.py:215-344)

`process_application` splits the free text on newlines and builds the
`application_data` dict.  In the source, the local `description` is only
assigned inside the `len(app_lines) >= 9` branch (bot.py:247-248), yet the
dict at bot.py:275 reads it unconditionally: with fewer than nine lines the
dict construction raises `UnboundLocalError` before anything is stored.
The embedding returns that failure as `Except.error`. -/

/-- The `application_data` record construction of `process_application`
(bot.py:229, 244, 247-248, 264-277).  The guarded conversions
`int(app_lines[i]) if ... app_lines[i].isdigit() else 0` sit outside every
`try`, so an `isdigit`-true field that `int()` rejects (a superscript
digit) raises out of the handler; the VAT field (dict entry `nds_rate`)
is evaluated before the amount field, matching the dict's entry order. -/
def process_application_record (user_id : Int) (direction operation text : String) :
    Except String ClientApplication :=
  let application_text := pyStrip text
  let app_lines := pySplit '\n' application_text
  if 9 ≤ app_lines.length then
    -- bot.py:248 (the inner guard is dead in this branch but kept verbatim)
    let description := if 8 < app_lines.length then app_lines.getD 8 "" else "Не указано"
    let ndsE : Except String Int :=
      if 3 < app_lines.length ∧ pyIsDigit (app_lines.getD 3 "") then
        match pyIntDigits (app_lines.getD 3 "") with
        | some v => Except.ok (v : Int)
        | none => Except.error "ValueError: invalid literal for int()"
      else Except.ok 0
    match ndsE with
    | Except.error e => Except.error e
    | Except.ok nds_rate =>
      let amountE : Except String Int :=
        if 6 < app_lines.length ∧ pyIsDigit (app_lines.getD 6 "") then
          match pyIntDigits (app_lines.getD 6 "") with
          | some v => Except.ok (v : Int)
          | none => Except.error "ValueError: invalid literal for int()"
        else Except.ok 0
      match amountE with
      | Except.error e => Except.error e
      | Except.ok amount =>
        Except.ok
          { user_id := user_id
            direction := direction
            company_name := if 0 < app_lines.length then app_lines.getD 0 "" else ""
            inn := if 1 < app_lines.length then app_lines.getD 1 "" else ""
            bank := if 2 < app_lines.length then app_lines.getD 2 "" else ""
            nds_rate := nds_rate
            category := if 4 < app_lines.length then app_lines.getD 4 "" else ""
            payment_purpose := if 5 < app_lines.length then app_lines.getD 5 "" else ""
            amount := amount
            equipment_type := if 7 < app_lines.length then app_lines.getD 7 "" else ""
            description := description
            operation_type := operation
            admin_message_id := none
            admin_chat_id := none }
  else
    -- bot.py:260-261 set only `detailed_app`; `description` stays unbound and
    -- the dict at bot.py:264-277 raises before `add_client_application` runs.
    Except.error "UnboundLocalError: local variable referenced before assignment"

/-- `KPDatabase.add_client_application` (database.py:384-419): insert,
returning the fresh rowid. -/
def add_client_application (apps : List ClientApplication) (a : ClientApplication) :
    List ClientApplication × Int :=
  (apps ++ [a], (apps.length : Int) + 1)

/-! ## Rate limiter (models/rate_limiter.py)

Timestamps are rationals; per-user request lists keep insertion order, as
the Python lists do. -/

/-- `RateLimiter.is_allowed` (rate_limiter.py:17-32) for one user's request
list: prune entries older than the window, deny (without recording) at the
limit, otherwise record and allow. -/
def is_allowed (max_requests : Nat) (time_window : ℚ) (requests : List ℚ)
    (current_time : ℚ) : Bool × List ℚ :=
  let kept := requests.filter fun req_time => decide (current_time - req_time < time_window)
  if max_requests ≤ kept.length then (false, kept)
  else (true, kept ++ [current_time])

/-- Iterate `is_allowed` over a chronological list of call times, collecting
the verdicts. -/
def run_calls (max_requests : Nat) (time_window : ℚ) :
    List ℚ → List ℚ → List Bool
  | _, [] => []
  | requests, t :: ts =>
    let r := is_allowed max_requests time_window requests t
    r.1 :: run_calls max_requests time_window r.2 ts

/-! ## Conversation state and the user handler (handlers/user_handler.py)

`self.user_states` is a Python dict keyed by user id whose values are
heterogeneous dicts; the embedding uses an insertion-ordered association
list of records with one optional field per dict key. -/

/-- One `user_states[user_id]` dict: any subset of the keys
`state`, `direction`, `operation`, `timestamp` may be present. -/
structure ConvState where
  state : Option String := none
  direction : Option String := none
  operation : Option String := none
  timestamp : Option ℚ := none
deriving DecidableEq

/-- `d[k] = v` on an insertion-ordered dict. -/
def dictSet {α : Type} (k : Int) (v : α) : List (Int × α) → List (Int × α)
  | [] => [(k, v)]
  | (k', v') :: rest => if k' = k then (k, v) :: rest else (k', v') :: dictSet k v rest

/-- `del d[k]` on an insertion-ordered dict. -/
def dictErase {α : Type} (k : Int) (m : List (Int × α)) : List (Int × α) :=
  m.filter fun p => p.1 ≠ k

/-- Everything a handler turn does besides mutating state: which message or
alert it answers with, or which downstream handler it awaits. -/
inductive Effect where
  | answer_blocked
  | reply_blocked
  | answer_rate_limited
  | welcome
  | show_directions
  | unknown_direction
  | show_form (operation direction : String)
  | dispatch_feedback (data : String)
  | dispatch_send_kp (data : String)
  | dispatch_kp_page (data : String)
  | admin_command (text : String)
  | admin_kp_state
  | admin_response (text : String)
  | ignored
  | dispatch_application (text : String)
  | no_effect
deriving DecidableEq

/-- `UserHandler.start` (user_handler.py:27-60): unconditionally clears the
caller's conversation state and shows the operation keyboard.  `bot.start`
(bot.py:117-119) delegates straight here: the `/start` entry point consults
neither the blocked flag nor the rate limiter. -/
def user_handler_start (user_states : List (Int × ConvState)) (user_id : Int) :
    List (Int × ConvState) × Effect :=
  (dictErase user_id user_states, .welcome)

/-- `UserHandler.handle_operation_selection` (user_handler.py:62-77):
strip the `operation_` tag, record the operation in a (possibly fresh)
state dict, show the direction keyboard. -/
def handle_operation_selection (user_states : List (Int × ConvState))
    (user_id : Int) (query_data : String) : List (Int × ConvState) × Effect :=
  let operation := pyReplace query_data "operation_" ""
  let cur := (user_states.lookup user_id).getD {}
  (dictSet user_id { cur with operation := some operation } user_states, .show_directions)

/-- `UserHandler.handle_direction_selection` (user_handler.py:97-134):
strip the `direction_` tag; unknown keys answer an error without touching
state; otherwise the operation is read from any existing state with
default `'send'` and the user advances to the awaiting-application state. -/
def handle_direction_selection (directions : List (String × String))
    (user_states : List (Int × ConvState)) (user_id : Int) (query_data : String)
    (now : ℚ) : List (Int × ConvState) × Effect :=
  let direction := pyReplace query_data "direction_" ""
  if (directions.find? fun p => p.1 == direction).isNone then
    (user_states, .unknown_direction)
  else
    let operation := ((user_states.lookup user_id).bind (·.operation)).getD "send"
    (dictSet user_id
      { state := some "waiting_application", direction := some direction,
        operation := some operation, timestamp := some now } user_states,
      .show_form operation direction)

/-! ## Inbound entry points (bot.py:117-213)

The three registered entry points are `CommandHandler("start", bot.start)`,
`CallbackQueryHandler(bot.button_callback)` and the two
`MessageHandler(..., bot.handle_text_message)` registrations
(bot.py:1551-1563).  The durable writes a turn performs are collected in an
append-only log. -/

/-- A durable store write. -/
inductive DbWrite where
  | upsert_user (user_id : Int)
  | add_application (a : ClientApplication)
  | add_feedback (user_id : Int) (offer_ref feedback_type direction : String)
  | add_owner_notification (user_id : Int) (offer_id direction : String)
deriving DecidableEq

/-- The mutable state shared by the handlers: the in-memory conversation
map, the rate limiter's per-user request lists, and the durable-write log. -/
structure BotState where
  user_states : List (Int × ConvState)
  rate_requests : List (Int × List ℚ)
  db_log : List DbWrite
deriving DecidableEq

/-- `RateLimiter.is_allowed` on the whole `requests` defaultdict. -/
def rl_is_allowed (max_requests : Nat) (time_window : ℚ)
    (m : List (Int × List ℚ)) (user_id : Int) (now : ℚ) :
    Bool × List (Int × List ℚ) :=
  let requests := (m.lookup user_id).getD []
  let r := is_allowed max_requests time_window requests now
  (r.1, dictSet user_id r.2 m)

/-- `ApplicationBot.button_callback` (bot.py:121-160): blocked check, user
upsert, rate limit, then dispatch on the payload's kind tag. -/
def button_callback (blocked : Int → Bool) (max_requests : Nat) (time_window : ℚ)
    (directions : List (String × String)) (st : BotState) (user_id : Int)
    (now : ℚ) (data : String) : BotState × Effect :=
  if blocked user_id then (st, .answer_blocked)
  else
    let st1 := { st with db_log := st.db_log ++ [DbWrite.upsert_user user_id] }
    let r := rl_is_allowed max_requests time_window st1.rate_requests user_id now
    let st2 := { st1 with rate_requests := r.2 }
    if !r.1 then (st2, .answer_rate_limited)
    else if data == "restart" then
      let h := user_handler_start st2.user_states user_id
      ({ st2 with user_states := h.1 }, h.2)
    else if pyStartsWith data "operation_" then
      let h := handle_operation_selection st2.user_states user_id data
      ({ st2 with user_states := h.1 }, h.2)
    else if pyStartsWith data "direction_" then
      let h := handle_direction_selection directions st2.user_states user_id data now
      ({ st2 with user_states := h.1 }, h.2)
    else if pyStartsWith data "feedback_" || pyStartsWith data "fb_" then
      (st2, .dispatch_feedback data)
    else if pyStartsWith data "send_kp_" then
      (st2, .dispatch_send_kp data)
    else if pyStartsWith data "kp_page_" then
      (st2, .dispatch_kp_page data)
    else (st2, .no_effect)

/-- `ApplicationBot.handle_text_message` (bot.py:162-213): blocked check,
user upsert, rate limit, then routing between admin commands, admin-chat
flows and client application submission. -/
def handle_text_message (blocked : Int → Bool) (max_requests : Nat)
    (time_window : ℚ) (admin_chats : List (String × Int))
    (admin_state_exists : Bool) (reply_to_bot : Bool) (st : BotState)
    (user_id chat_id : Int) (now : ℚ) (text : String) : BotState × Effect :=
  if blocked user_id then (st, .reply_blocked)
  else
    let st1 := { st with db_log := st.db_log ++ [DbWrite.upsert_user user_id] }
    let r := rl_is_allowed max_requests time_window st1.rate_requests user_id now
    let st2 := { st1 with rate_requests := r.2 }
    if !r.1 then (st2, .answer_rate_limited)
    else if pyStartsWith text "/" then (st2, .admin_command text)
    else if admin_chats.any fun p => toString chat_id == toString p.2 then
      if admin_state_exists then (st2, .admin_kp_state)
      else if reply_to_bot then (st2, .admin_response text)
      else (st2, .ignored)
    else (st2, .dispatch_application text)

/-! ## Reconciliation engine (bot.py:346-853)

Three paths resolve an administrator action back to a client:
`handle_admin_response` (free-text reply), `handle_send_kp` (send-offer
button) and `handle_feedback` (relayed client feedback button). -/

/-- The client-company scan of `handle_admin_response` (bot.py:405-416):
first line containing the firm marker wins; a line containing the
new-application banner donates its successor when that successor is
nonempty and not one of the known field lines. -/
def scan_client_info (apps_lines : List String) : Option String :=
  match apps_lines with
  | [] => none
  | line :: rest =>
    if pyContains line "Фирма:" then
      some (pyStrip ((pySplitStr "Фирма:" line).getD 1 ""))
    else if pyContains line "НОВАЯ ЗАЯВКА" then
      match rest with
      | [] => none
      | next :: _ =>
        let next_line := pyStrip next
        if next_line ≠ "" ∧ ¬(pyStartsWith next_line "💸") ∧ ¬(pyStartsWith next_line "👤")
        then some next_line
        else scan_client_info rest
    else scan_client_info rest

/-- What `handle_admin_response` recovers and emits when it does not drop
the action. -/
structure AdminResponseResolution where
  user_id : Int
  direction : Option String
  client_info : String
  cb_yes : String
  cb_no : String
deriving DecidableEq

/-- `ApplicationBot.handle_admin_response` (bot.py:346-456) up to the
outbound sends.  `apps` (the durable store) and `reply_to_message_id` (the
replied bot message's id, the store's lookup key) are both in scope in the
source but never consulted: the client id and direction come exclusively
from scanning the replied message's text, with the admin-chat mapping as
the direction fallback.  `none` models the silently dropped action or a
raised-and-logged exception. -/
def handle_admin_response (apps : List ClientApplication)
    (directions : List (String × String)) (admin_chats : List (String × Int))
    (admin_chat_id : Int) (reply_to_message_id : Int) (bot_message_text : String)
    (kp_message_id : Int) : Option AdminResponseResolution :=
  let _ := apps
  let _ := reply_to_message_id
  if ¬(pyContains bot_message_text "ID: ") then none
  else
    let lines := pySplit '\n' bot_message_text
    match lines.find? (fun line =>
        pyContains line "🆔 ID:" && !(pyContains line "НОВАЯ ЗАЯВКА")) with
    | none => none
    | some user_id_line =>
      let id_part := pyStrip ((pySplitStr "🆔 ID:" user_id_line).getD 1 "")
      match pyInt id_part with
      | none => none
      | some user_id =>
        let direction : Option String :=
          match lines.filter (fun line => pyContains line "Направление:") with
          | [] => none
          | dl :: _ =>
            let direction_text := pyStrip ((pySplitStr "Направление:" dl).getD 1 "")
            (directions.find? fun p => p.2 == direction_text).map (·.1)
        -- `if not direction:` — `None` and the empty key are both falsy
        let direction :=
          if direction = none ∨ direction = some "" then
            match admin_chats.find? (fun p => toString admin_chat_id == toString p.2) with
            | some p => some p.1
            | none => direction
          else direction
        let client_info := (scan_client_info lines).getD "Неизвестная заявка"
        let client_info := sanitize_client_info_admin client_info
        let client_short := client_short_of client_info
        let direction_for_feedback := direction.getD "unknown"
        some { user_id := user_id, direction := direction, client_info := client_info
               cb_yes := feedback_callback_data true admin_chat_id kp_message_id
                 "none" direction_for_feedback client_short
               cb_no := feedback_callback_data false admin_chat_id kp_message_id
                 "none" direction_for_feedback client_short }

/-- The application-id extraction `int(line.split('ID:')[1].strip()
.split(')')[0].strip())` of bot.py:520-521 (and 542-543) with the
`ValueError` turned into `none`. -/
def extract_app_id (line : String) : Option Int :=
  let id_part := pyStrip ((pySplitStr "ID:" line).getD 1 "")
  pyInt (pyStrip ((pySplit ')' id_part).getD 0 ""))

/-- The second lookup attempt of `handle_send_kp` (bot.py:512-527): find the
first line whose embedded application id resolves in the store. -/
def scan_app_id_lookup (apps : List ClientApplication) : List String → Option ClientApplication
  | [] => none
  | line :: rest =>
    let r :=
      if pyContains line "НОВАЯ ЗАЯВКА (ID:" then
        match extract_app_id line with
        | some i => get_client_application_by_id apps i
        | none => none
      else none
    match r with
    | some a => some a
    | none => scan_app_id_lookup apps rest

/-- The last-resort scan of `handle_send_kp` (bot.py:536-558): application
id again, else a firm-name line; the firm branch recovers only the client
name, not the direction. -/
def scan_fallback (apps : List ClientApplication) : List String → Option (String × Option String)
  | [] => none
  | line :: rest =>
    let fromApp :=
      if pyContains line "НОВАЯ ЗАЯВКА (ID:" then
        match extract_app_id line with
        | some i => get_client_application_by_id apps i
        | none => none
      else none
    match fromApp with
    | some a => some (a.company_name, some a.direction)
    | none =>
      if pyContains line "🏢 Фирма:" then
        some (pyStrip ((pySplitStr "🏢 Фирма:" line).getD 1 ""), none)
      else if pyContains line "Фирма:" && pyContains line "🏢" then
        some (pyStrip ((pySplitStr "Фирма:" line).getD 1 ""), none)
      else scan_fallback apps rest

/-- The replied-to message a button press may carry. -/
structure ReplyMsg where
  message_id : Int
  text : Option String
deriving DecidableEq

/-- The observable result of `handle_send_kp`. -/
inductive SendKpOutcome where
  | invalid_data
  | kp_missing
  | send_error
  | sent (client_user_id : Int) (client_info direction_from_db : String)
      (cb_yes cb_no : String)
deriving DecidableEq

/-- `ApplicationBot.handle_send_kp` (bot.py:458-604).  Resolution order for
the feedback buttons attached to the outgoing offer: durable lookup by the
replied message's id and the chat id, then the application id embedded in
the replied text, then the firm-name text scan; a store hit supplies both
the client name and the direction, overriding the offer's own direction. -/
def handle_send_kp (offers : List ReadyOffer) (apps : List ClientApplication)
    (query_data : Option String) (message_chat_id message_message_id : Int)
    (reply_to : Option ReplyMsg) : SendKpOutcome :=
  match parse_callback_data query_data 4 with
  | none => .invalid_data
  | some parts =>
    match pyInt (parts.getD 2 ""), pyInt (parts.getD 3 "") with
    | some offer_id, some client_user_id =>
      match get_ready_offer_by_id offers offer_id with
      | none => .kp_missing
      | some offer =>
        let admin_chat_id := message_chat_id
        -- first attempt: durable lookup keyed by replied message id + chat id
        let app_data :=
          match reply_to with
          | some r => get_client_application_by_admin_message apps r.message_id
              (toString admin_chat_id)
          | none => none
        -- second attempt: application id embedded in the replied text
        let app_data :=
          match app_data with
          | some a => some a
          | none =>
            match reply_to with
            | some r =>
              match r.text with
              | some t => scan_app_id_lookup apps (pySplit '\n' t)
              | none => none
            | none => none
        let ci_dir : String × String :=
          match app_data with
          | some a => (a.company_name, a.direction)
          | none =>
            match reply_to with
            | some r =>
              match r.text with
              | some t =>
                match scan_fallback apps (pySplit '\n' t) with
                | some (ci, some d) => (ci, d)
                | some (ci, none) => (ci, offer.direction)
                | none => ("Неизвестная заявка", offer.direction)
              | none => ("Неизвестная заявка", offer.direction)
            | none => ("Неизвестная заявка", offer.direction)
        let client_info := sanitize_client_info_kp ci_dir.1
        let direction_from_db := ci_dir.2
        let client_short := client_short_of client_info
        -- bot.py:507-508, 570: with a reply the message id set there is used
        let kp_message_id := (reply_to.map (·.message_id)).getD message_message_id
        .sent client_user_id client_info direction_from_db
          (feedback_callback_data true admin_chat_id kp_message_id
            (toString offer_id) direction_from_db client_short)
          (feedback_callback_data false admin_chat_id kp_message_id
            (toString offer_id) direction_from_db client_short)
    | _, _ => .send_error

/-- The feedback row `handle_feedback` persists (bot.py:715-721). -/
structure FeedbackRecord where
  user_id : Int
  offer_id : String
  feedback_type : String
  direction : String
deriving DecidableEq

/-- The observable result of `handle_feedback`. -/
inductive FeedbackOutcome where
  | invalid_data
  | processed (client_info : String) (rec : FeedbackRecord)
      (final_direction : Option String)
deriving DecidableEq

/-- `ApplicationBot.handle_feedback` (bot.py:655-853) up to the outbound
notifications: decode the token, override client identity and direction
from the durable store when the (message id, chat id) key resolves, fall
back to the admin-chat mapping for an unknown direction, build the
composite offer reference and the feedback row. -/
def handle_feedback (apps : List ClientApplication) (admin_chats : List (String × Int))
    (query_data : Option String) (user_id : Int) : FeedbackOutcome :=
  match parse_callback_data query_data 7 with
  | none => .invalid_data
  | some parts =>
    let feedback_type := parts.getD 1 ""
    let admin_chat_id := parts.getD 2 ""
    let kp_message_id := parts.getD 3 ""
    let offer_id := parts.getD 4 ""
    let direction := parts.getD 5 ""
    let client_short := if 6 < parts.length then parts.getD 6 "" else "unk"
    -- bot.py:683-698: store lookup first; `int()` failure or a miss falls
    -- back to the token's truncated name and direction
    let ci_dir : String × String :=
      match pyInt kp_message_id with
      | none => (client_short, direction)
      | some mid =>
        match get_client_application_by_admin_message apps mid admin_chat_id with
        | some a => (a.company_name, a.direction)
        | none => (client_short, direction)
    let client_info := ci_dir.1
    let direction := ci_dir.2
    -- bot.py:701-708: admin-chat fallback for an unknown direction
    let direction :=
      if direction = "unknown" ∨ direction = "" then
        match admin_chats.find? (fun p => p.2 ≠ 0 && decide (admin_chat_id = toString p.2)) with
        | some p => p.1
        | none => direction
      else direction
    -- bot.py:710-712: composite offer reference
    let kp_id := admin_chat_id ++ "_" ++ kp_message_id
    let kp_id := if offer_id ≠ "" then kp_id ++ "_" ++ offer_id else kp_id
    -- bot.py:764-772: direction shown to the admin chat
    let admin_direction :=
      (admin_chats.find? fun p => decide (admin_chat_id = toString p.2)).map (·.1)
    let final_direction :=
      if direction ≠ "" ∧ direction ≠ "unknown" then some direction else admin_direction
    .processed client_info
      { user_id := user_id, offer_id := kp_id, feedback_type := feedback_type
        direction := if direction = "" then "unknown" else direction }
      final_direction

/-! ## Offer pagination (bot.py:297-311, 606-653) -/

/-- The observable result of `handle_kp_pagination`. -/
inductive KpPageOutcome where
  | invalid_data
  | no_more
  | page_error
  | page (offers : List ReadyOffer) (has_prev has_next : Bool)
deriving DecidableEq

/-- The navigation controls of `handle_kp_pagination` (bot.py:636-640):
a back button exactly when the page index is positive, a forward button
exactly when a full page of 5 offers came back. -/
def kp_nav_controls (page : Int) (ready_offers : List ReadyOffer) : Bool × Bool :=
  (decide (0 < page), ready_offers.length == 5)

/-- `ApplicationBot.handle_kp_pagination` (bot.py:606-653): page size 5,
offset `page * 5`; an empty page answers "no more"; a back control appears
exactly when the page index is positive, a forward control exactly when a
full page came back. -/
def handle_kp_pagination (db_offers : List ReadyOffer) (query_data : Option String) :
    KpPageOutcome :=
  match parse_callback_data query_data 5 with
  | none => .invalid_data
  | some parts =>
    match pyInt (parts.getD 2 ""), pyInt (parts.getD 4 "") with
    | some page, some _client_user_id =>
      let direction := parts.getD 3 ""
      -- sqlite ignores a negative OFFSET, hence `toNat`
      let offset := (page * 5).toNat
      let ready_offers := get_ready_offers_by_direction db_offers direction 5 offset
      if ready_offers.isEmpty then .no_more
      else
        let nav := kp_nav_controls page ready_offers
        .page ready_offers nav.1 nav.2
    | _, _ => .page_error

/-- The forward-only control of the initial listing in `process_application`
(bot.py:297-311): a next-page button appears exactly when the first page is
full; no back control exists there. -/
def initial_kp_has_next (ready_offers : List ReadyOffer) : Bool :=
  ready_offers.length == 5

/-! ## Helper lemmas -/

theorem splitCharList_no_sep : ∀ {l : List Char} {sep : Char}, sep ∉ l →
    splitCharList sep l = [l]
  | [], _, _ => rfl
  | c :: rest, sep, h => by
    have hc : ¬ c = sep := fun e => h (e ▸ List.mem_cons_self c rest)
    have hr := @splitCharList_no_sep rest sep
      (fun hm => h (List.mem_cons_of_mem c hm))
    simp [splitCharList, hc, hr]

theorem splitCharList_append : ∀ {a : List Char} {sep : Char} (b : List Char), sep ∉ a →
    splitCharList sep (a ++ sep :: b) = a :: splitCharList sep b
  | [], sep, b, _ => by simp [splitCharList]
  | c :: a, sep, b, h => by
    have hc : ¬ c = sep := fun e => h (e ▸ List.mem_cons_self c a)
    have hr := @splitCharList_append a sep b
      (fun hm => h (List.mem_cons_of_mem c hm))
    simp [splitCharList, hc, hr]

theorem string_mk_data (s : String) : String.mk s.data = s := rfl

/-- The character list underlying a feedback token, in separator-exposed
form. -/
theorem feedback_callback_data_data (p : Bool) (c m : Int) (o d k : String) :
    (feedback_callback_data p c m o d k).data =
      (if p then ['f','b'] ++ '_' :: ['y','e','s'] else ['f','b'] ++ '_' :: ['n','o']) ++
        '_' :: ((toString c).data ++ '_' :: ((toString m).data ++ '_' ::
          (o.data ++ '_' :: (d.data ++ '_' :: k.data)))) := by
  cases p <;>
    simp [feedback_callback_data, String.data_append, List.append_assoc]

/-! ## C1: feedback-token round trip -/

/-- C1 (counterexample): the claimed round trip fails for a direction key
containing an underscore (and, equally, for a client name whose spaces the
encoder rewrites to underscores): splitting on underscores misparses the
token, returning direction `a` and client `b` for direction `a_b` and
client `cli`. -/
theorem C1_roundtrip_counterexample :
    decode_feedback (feedback_callback_data true 100 55 "none" "a_b" "cli") =
      some { feedback_type := "yes", admin_chat_id := "100", kp_message_id := "55",
             offer_id := "none", direction := "a", client_short := "b" } ∧
    ("a" : String) ≠ "a_b" := by
  constructor
  · decide
  · decide

/-- C1 (amended): encoding a feedback token and decoding it by splitting on
underscores recovers every field, provided no embedded field itself
contains an underscore (the rendered ids never do; the direction key and
the truncated client name must not — a client name containing spaces
violates this, since the encoder rewrites them to underscores). -/
theorem C1_feedback_roundtrip_amended (p : Bool) (c m : Int) (o d k : String)
    (hc : '_' ∉ (toString c).data) (hm : '_' ∉ (toString m).data)
    (ho : '_' ∉ o.data) (hd : '_' ∉ d.data) (hk : '_' ∉ k.data) :
    decode_feedback (feedback_callback_data p c m o d k) =
      some { feedback_type := if p then "yes" else "no",
             admin_chat_id := toString c, kp_message_id := toString m,
             offer_id := o, direction := d, client_short := k } := by
  have key : ∀ pre : List Char, '_' ∉ pre →
      splitCharList '_' (pre ++ '_' :: ((toString c).data ++ '_' ::
          ((toString m).data ++ '_' :: (o.data ++ '_' ::
            (d.data ++ '_' :: k.data))))) =
        [pre, (toString c).data, (toString m).data, o.data, d.data, k.data] := by
    intro pre hpre
    rw [splitCharList_append _ hpre, splitCharList_append _ hc,
        splitCharList_append _ hm, splitCharList_append _ ho,
        splitCharList_append _ hd, splitCharList_no_sep hk]
  cases p with
  | true =>
    have hdata := feedback_callback_data_data true c m o d k
    rw [if_pos rfl] at hdata
    have hsplit : splitCharList '_' (feedback_callback_data true c m o d k).data =
        [['f','b'], ['y','e','s'], (toString c).data, (toString m).data,
          o.data, d.data, k.data] := by
      rw [hdata]
      show splitCharList '_' (['f','b'] ++ '_' :: (['y','e','s'] ++ '_' ::
          ((toString c).data ++ '_' :: ((toString m).data ++ '_' ::
            (o.data ++ '_' :: (d.data ++ '_' :: k.data)))))) =
        [['f','b'], ['y','e','s'], (toString c).data, (toString m).data,
          o.data, d.data, k.data]
      rw [splitCharList_append _ (by decide : '_' ∉ ['f','b']),
          key ['y','e','s'] (by decide)]
    have hlen10 : ¬ (feedback_callback_data true c m o d k).length < 10 := by
      have hl : (feedback_callback_data true c m o d k).length =
          (feedback_callback_data true c m o d k).data.length := rfl
      rw [hl, hdata]
      simp only [List.length_append, List.length_cons, List.length_nil]
      omega
    have hparts : pySplit '_' (feedback_callback_data true c m o d k) =
        ["fb", "yes", toString c, toString m, o, d, k] := by
      unfold pySplit
      rw [hsplit]
      simp only [List.map_cons, List.map_nil, string_mk_data]
    simp [decode_feedback, parse_callback_data, if_neg hlen10, hparts, List.getD]
  | false =>
    have hdata := feedback_callback_data_data false c m o d k
    rw [if_neg (by decide : ¬ (false = true))] at hdata
    have hsplit : splitCharList '_' (feedback_callback_data false c m o d k).data =
        [['f','b'], ['n','o'], (toString c).data, (toString m).data,
          o.data, d.data, k.data] := by
      rw [hdata]
      show splitCharList '_' (['f','b'] ++ '_' :: (['n','o'] ++ '_' ::
          ((toString c).data ++ '_' :: ((toString m).data ++ '_' ::
            (o.data ++ '_' :: (d.data ++ '_' :: k.data)))))) =
        [['f','b'], ['n','o'], (toString c).data, (toString m).data,
          o.data, d.data, k.data]
      rw [splitCharList_append _ (by decide : '_' ∉ ['f','b']),
          key ['n','o'] (by decide)]
    have hlen10 : ¬ (feedback_callback_data false c m o d k).length < 10 := by
      have hl : (feedback_callback_data false c m o d k).length =
          (feedback_callback_data false c m o d k).data.length := rfl
      rw [hl, hdata]
      simp only [List.length_append, List.length_cons, List.length_nil]
      omega
    have hparts : pySplit '_' (feedback_callback_data false c m o d k) =
        ["fb", "no", toString c, toString m, o, d, k] := by
      unfold pySplit
      rw [hsplit]
      simp only [List.map_cons, List.map_nil, string_mk_data]
    simp [decode_feedback, parse_callback_data, if_neg hlen10, hparts, List.getD]

/-- C1 (witness): the amended round trip at a concrete token. -/
theorem C1_feedback_roundtrip_witness :
    decode_feedback (feedback_callback_data true 500 42 "none" "metall" "Gamma") =
      some { feedback_type := "yes", admin_chat_id := "500", kp_message_id := "42",
             offer_id := "none", direction := "metall", client_short := "Gamma" } :=
  C1_feedback_roundtrip_amended true 500 42 "none" "metall" "Gamma"
    (by decide) (by decide) (by decide) (by decide) (by decide)

/-! ## C4: payload size -/

/-- UTF-8 byte length distributes over concatenation. -/
theorem utf8Len_append (a b : String) : utf8Len (a ++ b) = utf8Len a + utf8Len b := by
  simp [utf8Len, String.data_append]

/-- C4 (counterexample): nothing bounds the direction key or the numeric
ids, so a configured direction key of 60 ASCII characters already gives an
80-byte feedback token, past the 64-byte payload ceiling. -/
theorem C4_payload_counterexample :
    64 ≤ utf8Len (feedback_callback_data true 1 1 "none"
      (String.mk (List.replicate 60 'd')) "cli") := by decide

/-- C4 (amended): a token's UTF-8 byte length is its fixed overhead
(prefix plus separators: 11 bytes for `fb_yes`, 10 for `fb_no`, 9 for
`send_kp`, 10 for `kp_page`) plus the byte lengths of its fields, so each
token stays under the platform's 64-byte ceiling exactly when its fields'
combined byte length fits the remaining budget: at most 52 bytes for the
feedback fields (rendered chat id, rendered message id, offer id, direction
key, and the code-truncated client hint), 54 for the send-offer fields and
53 for the pagination fields.  Non-ASCII direction keys and client hints
count at their UTF-8 width. -/
theorem C4_payload_bound_amended (p : Bool) (c m oid pg u : Int) (o d raw : String)
    (hfb : utf8Len (toString c) + utf8Len (toString m) + utf8Len o + utf8Len d +
      utf8Len (client_short_of (sanitize_client_info_kp raw)) ≤ 52)
    (hsend : utf8Len (toString oid) + utf8Len (toString u) ≤ 54)
    (hpage : utf8Len (toString pg) + utf8Len d + utf8Len (toString u) ≤ 53) :
    utf8Len (feedback_callback_data p c m o d
      (client_short_of (sanitize_client_info_kp raw))) < 64 ∧
    utf8Len (send_kp_callback_data oid u) < 64 ∧
    utf8Len (kp_page_callback_data pg d u) < 64 := by
  have l1 : utf8Len "fb_yes_" = 7 := rfl
  have l2 : utf8Len "fb_no_" = 6 := rfl
  have l3 : utf8Len "_" = 1 := rfl
  have l4 : utf8Len "send_kp_" = 8 := rfl
  have l5 : utf8Len "kp_page_" = 8 := rfl
  refine ⟨?_, ?_, ?_⟩
  · cases p <;>
      simp only [feedback_callback_data, if_true, if_false, Bool.false_eq_true,
        ite_false, ite_true, utf8Len_append, l1, l2, l3] <;>
      omega
  · simp only [send_kp_callback_data, utf8Len_append, l3, l4]
    omega
  · simp only [kp_page_callback_data, utf8Len_append, l3, l5]
    omega

/-- C4 (witness): the amended bound at concrete values with non-ASCII
fields: a supergroup chat id (14 bytes), a Cyrillic direction key
`металл` (12 bytes) and the Cyrillic client hint the code truncates from
`ООО Ромашка` (9 bytes). -/
theorem C4_payload_bound_witness :
    utf8Len (feedback_callback_data true (-1001234567890) 654321 "17" "металл"
      (client_short_of (sanitize_client_info_kp "ООО Ромашка"))) < 64 ∧
    utf8Len (send_kp_callback_data 17 987654321) < 64 ∧
    utf8Len (kp_page_callback_data 3 "металл" 987654321) < 64 :=
  C4_payload_bound_amended true (-1001234567890) 654321 17 3 987654321 "17" "металл"
    "ООО Ромашка" (by decide) (by decide) (by decide)

/-! ## C5: short application text -/

/-- C5 (code bug): a user in the awaiting-application state who submits
fewer than nine newline-separated lines does not get the documented
default-filled record; the dict construction at bot.py:264-277 reads the
local `description`, which bot.py:247-248 only assigns in the nine-line
branch, so the submission raises before anything is stored, forwarded or
reset. -/
theorem C5_short_application_raises :
    process_application_record 7 "metall" "send" "ООО Ромашка\n7701234567\nСбер" =
      Except.error "UnboundLocalError: local variable referenced before assignment" := by
  rfl

/-! ## C6: decoder totality -/

/-- C6: `_parse_callback_data` is total: an absent token, a token shorter
than 10 characters, or one with fewer than the expected number of
underscore-delimited parts yields the distinguished `none`, and each button
handler answers the recoverable invalid-request alert on that result
instead of crashing. -/
theorem C6_parse_callback_total (data : Option String) (n : Nat) (s : String)
    (offers : List ReadyOffer) (apps : List ClientApplication)
    (chats : List (String × Int)) (chat mid uid : Int) (reply : Option ReplyMsg) :
    (parse_callback_data none n = none) ∧
    (s.length < 10 → parse_callback_data (some s) n = none) ∧
    ((pySplit '_' s).length < n → parse_callback_data (some s) n = none) ∧
    (parse_callback_data data 4 = none →
      handle_send_kp offers apps data chat mid reply = .invalid_data) ∧
    (parse_callback_data data 7 = none →
      handle_feedback apps chats data uid = .invalid_data) ∧
    (parse_callback_data data 5 = none →
      handle_kp_pagination offers data = .invalid_data) := by
  refine ⟨rfl, ?_, ?_, ?_, ?_, ?_⟩
  · intro h
    simp [parse_callback_data, h]
  · intro h
    by_cases hs : s.length < 10
    · simp [parse_callback_data, hs]
    · simp [parse_callback_data, hs, h]
  · intro h
    simp [handle_send_kp, h]
  · intro h
    simp [handle_feedback, h]
  · intro h
    simp [handle_kp_pagination, h]

/-- C6 (witness): the totality properties at concrete tokens: an
11-character token with only 4 parts against an expectation of 9, and a
3-character token fed to each of the three handlers. -/
theorem C6_parse_callback_witness :
    parse_callback_data (some "ab_cd_ef_gh") 9 = none ∧
    handle_send_kp [] [] (some "bad") 1 2 none = SendKpOutcome.invalid_data ∧
    handle_feedback [] [] (some "bad") 3 = FeedbackOutcome.invalid_data ∧
    handle_kp_pagination [] (some "bad") = KpPageOutcome.invalid_data :=
  ⟨(C6_parse_callback_total (some "bad") 9 "ab_cd_ef_gh" [] [] [] 1 2 3 none).2.2.1
      (by decide),
   (C6_parse_callback_total (some "bad") 9 "ab_cd_ef_gh" [] [] [] 1 2 3 none).2.2.2.1
      (by decide),
   (C6_parse_callback_total (some "bad") 9 "ab_cd_ef_gh" [] [] [] 1 2 3 none).2.2.2.2.1
      (by decide),
   (C6_parse_callback_total (some "bad") 9 "ab_cd_ef_gh" [] [] [] 1 2 3 none).2.2.2.2.2
      (by decide)⟩

/-! ## C8: permissive numeric parsing -/

/-- C8 (counterexample): the claim promises that a nine-field submission
with a non-numeric VAT field succeeds, whatever the other fields hold; but
an amount field of `²` (superscript two) passes the `isdigit` guard and
then makes `int()` raise outside any `try`, so the submission fails even
though the VAT field `abc` is non-numeric as the claim requires. -/
theorem C8_superscript_counterexample :
    pyIsDigit "abc" = false ∧
    process_application_record 7 "metall" "send"
      "Alfa\n7701\nSber\nabc\ncatA\npay\n²\ntypeB\ndescr" =
      Except.error "ValueError: invalid literal for int()" := by
  exact ⟨rfl, rfl⟩

/-- C8 (amended): for a nine-field submission whose VAT and amount fields
stay within the modelled digit repertoire, a field failing `str.isdigit`
is stored as 0, and the submission succeeds provided neither guarded field
passes `isdigit` while `int()` rejects it (as a superscript digit does —
in particular every fully ASCII submission succeeds). -/
theorem C8_nonnumeric_fields_amended (uid : Int) (dir op text : String)
    (h9 : (pySplit '\n' (pyStrip text)).length = 9)
    (hm3 : ((pySplit '\n' (pyStrip text)).getD 3 "").data.all pyDigitModelled = true)
    (hm6 : ((pySplit '\n' (pyStrip text)).getD 6 "").data.all pyDigitModelled = true) :
    ((pyIsDigit ((pySplit '\n' (pyStrip text)).getD 3 "") = true →
        pyIntDigits ((pySplit '\n' (pyStrip text)).getD 3 "") ≠ none) →
      (pyIsDigit ((pySplit '\n' (pyStrip text)).getD 6 "") = true →
        pyIntDigits ((pySplit '\n' (pyStrip text)).getD 6 "") ≠ none) →
      ∃ r, process_application_record uid dir op text = Except.ok r) ∧
    (pyIsDigit ((pySplit '\n' (pyStrip text)).getD 3 "") = false →
      ∀ r, process_application_record uid dir op text = Except.ok r →
        r.nds_rate = 0) ∧
    (pyIsDigit ((pySplit '\n' (pyStrip text)).getD 6 "") = false →
      ∀ r, process_application_record uid dir op text = Except.ok r →
        r.amount = 0) := by
  have h9' : 9 ≤ (pySplit '\n' (pyStrip text)).length := le_of_eq h9.symm
  refine ⟨?_, ?_, ?_⟩
  · intro hv3 hv6
    simp only [process_application_record, if_pos h9']
    cases h3 : pyIsDigit ((pySplit '\n' (pyStrip text)).getD 3 "") with
    | false =>
      cases h6 : pyIsDigit ((pySplit '\n' (pyStrip text)).getD 6 "") with
      | false => simp_all
      | true =>
        obtain ⟨v6, hv6'⟩ := Option.ne_none_iff_exists'.mp (hv6 h6)
        simp_all
    | true =>
      obtain ⟨v3, hv3'⟩ := Option.ne_none_iff_exists'.mp (hv3 h3)
      cases h6 : pyIsDigit ((pySplit '\n' (pyStrip text)).getD 6 "") with
      | false => simp_all
      | true =>
        obtain ⟨v6, hv6'⟩ := Option.ne_none_iff_exists'.mp (hv6 h6)
        simp_all
  · intro h3 r hr
    simp only [process_application_record, if_pos h9'] at hr
    simp only [h3, Bool.false_eq_true, and_false, if_false] at hr
    split at hr
    · exact absurd hr (by simp)
    · simp only [Except.ok.injEq] at hr
      subst hr
      rfl
  · intro h6 r hr
    simp only [process_application_record, if_pos h9'] at hr
    split at hr
    · exact absurd hr (by simp)
    · simp only [h6, Bool.false_eq_true, and_false, if_false] at hr
      simp only [Except.ok.injEq] at hr
      subst hr
      rfl

/-- C8 (witness): a nine-line ASCII submission whose VAT field is `20%`
and whose amount field is `1.5M` (both failing `isdigit`): the record is
built and both are stored as 0. -/
theorem C8_nonnumeric_fields_witness :
    (∃ r, process_application_record 7 "metall" "send"
        "Alfa\n7701\nSber\n20%\ncatA\npay\n1.5M\ntypeB\ndescr" = Except.ok r) ∧
    (∀ r, process_application_record 7 "metall" "send"
        "Alfa\n7701\nSber\n20%\ncatA\npay\n1.5M\ntypeB\ndescr" = Except.ok r →
      r.nds_rate = 0) ∧
    (∀ r, process_application_record 7 "metall" "send"
        "Alfa\n7701\nSber\n20%\ncatA\npay\n1.5M\ntypeB\ndescr" = Except.ok r →
      r.amount = 0) := by
  have h := C8_nonnumeric_fields_amended 7 "metall" "send"
    "Alfa\n7701\nSber\n20%\ncatA\npay\n1.5M\ntypeB\ndescr"
    (by rfl) (by rfl) (by rfl)
  exact ⟨h.1 (by intro hc; exact absurd hc (by decide))
      (by intro hc; exact absurd hc (by decide)),
    h.2.1 (by rfl), h.2.2 (by rfl)⟩

/-! ## C10: direction selection with no prior state -/

/-- C10: a direction button pressed with no recorded conversation state
does not error or ask for a restart: the operation silently defaults to
`send` and the user advances to the awaiting-application state with the
chosen direction. -/
theorem C10_direction_default_send (directions : List (String × String))
    (user_states : List (Int × ConvState)) (user_id : Int) (query_data d : String)
    (now : ℚ) (hd : pyReplace query_data "direction_" "" = d)
    (hmem : (directions.find? fun p => p.1 == d).isSome = true)
    (hnost : user_states.lookup user_id = none) :
    handle_direction_selection directions user_states user_id query_data now =
      (dictSet user_id
        { state := some "waiting_application", direction := some d,
          operation := some "send", timestamp := some now } user_states,
        Effect.show_form "send" d) := by
  rcases Option.isSome_iff_exists.mp hmem with ⟨v, hv⟩
  simp [handle_direction_selection, hd, hv, hnost]

/-- C10 (witness): pressing `direction_metall` with no prior state. -/
theorem C10_direction_default_send_witness :
    handle_direction_selection [("metall", "Металл")] [] 7 "direction_metall" 0 =
      ([(7, { state := some "waiting_application", direction := some "metall",
              operation := some "send", timestamp := some 0 })],
        Effect.show_form "send" "metall") :=
  C10_direction_default_send [("metall", "Металл")] [] 7 "direction_metall" "metall" 0
    (by rfl) (by rfl) (by rfl)

/-! ## C2: blocked users at the entry points -/

/-- C2 (counterexample): the `/start` entry point (`bot.start`, which
delegates to `UserHandler.start`) never consults the blocked flag — the
predicate is not even an input of the transition — and it deletes the
caller's conversation-state entry, so for a blocked user with a pending
dialogue the claimed rejection-before-mutation fails: the state map is
mutated and the effect is the welcome menu, not a rejection. -/
theorem C2_start_blocked_counterexample :
    user_handler_start [(7, { operation := some "send" })] 7 = ([], Effect.welcome) ∧
    [(7, ({ operation := some "send" } : ConvState))] ≠ ([] : List (Int × ConvState)) := by
  constructor
  · rfl
  · decide

/-- C2 (amended): on the button-callback and text-message entry points a
blocked user is rejected first: the handler returns the rejection effect
with the state fully unchanged — no conversation-state entry touched, no
rate-limiter slot consumed, no durable write logged.  (The `/start` entry
point performs no blocked check at all; see the counterexample.) -/
theorem C2_blocked_rejected_amended (blocked : Int → Bool) (max_requests : Nat)
    (time_window : ℚ) (directions : List (String × String))
    (admin_chats : List (String × Int)) (admin_state_exists reply_to_bot : Bool)
    (st : BotState) (user_id chat_id : Int) (now : ℚ) (data text : String)
    (hb : blocked user_id = true) :
    button_callback blocked max_requests time_window directions st user_id now data =
      (st, Effect.answer_blocked) ∧
    handle_text_message blocked max_requests time_window admin_chats
      admin_state_exists reply_to_bot st user_id chat_id now text =
      (st, Effect.reply_blocked) := by
  constructor
  · simp [button_callback, hb]
  · simp [handle_text_message, hb]

/-- C2 (witness): a blocked user pressing a button and sending a text:
both turns leave the state bit-for-bit unchanged. -/
theorem C2_blocked_rejected_witness :
    button_callback (fun u => u == 7) 15 60 []
      { user_states := [], rate_requests := [], db_log := [] } 7 0 "direction_metall" =
      ({ user_states := [], rate_requests := [], db_log := [] }, Effect.answer_blocked) ∧
    handle_text_message (fun u => u == 7) 15 60 [] false false
      { user_states := [], rate_requests := [], db_log := [] } 7 99 0 "hello" =
      ({ user_states := [], rate_requests := [], db_log := [] }, Effect.reply_blocked) :=
  C2_blocked_rejected_amended (fun u => u == 7) 15 60 [] [] false false
    { user_states := [], rate_requests := [], db_log := [] } 7 99 0 "direction_metall"
    "hello" (by rfl)

/-! ## Sorting lemmas for the offer listing -/

theorem length_insertLe {α : Type} (le : α → α → Bool) (x : α) :
    ∀ l : List α, (insertLe le x l).length = l.length + 1
  | [] => rfl
  | y :: ys => by
    simp only [insertLe]
    split
    · simp
    · simp [length_insertLe le x ys]

theorem length_sortLe {α : Type} (le : α → α → Bool) :
    ∀ l : List α, (sortLe le l).length = l.length
  | [] => rfl
  | x :: xs => by
    simp [sortLe, length_insertLe, length_sortLe le xs]

theorem mem_insertLe {α : Type} (le : α → α → Bool) (x a : α) :
    ∀ l : List α, a ∈ insertLe le x l ↔ a = x ∨ a ∈ l
  | [] => by simp [insertLe]
  | y :: ys => by
    simp only [insertLe]
    split
    · simp only [List.mem_cons]
    · simp only [List.mem_cons, mem_insertLe le x a ys]
      tauto

theorem pairwise_insertLe {α : Type} {le : α → α → Bool}
    (htrans : ∀ a b c, le a b = true → le b c = true → le a c = true)
    (htotal : ∀ a b, (le a b || le b a) = true) (x : α) :
    ∀ {l : List α}, List.Pairwise (fun a b => le a b = true) l →
      List.Pairwise (fun a b => le a b = true) (insertLe le x l)
  | [], _ => by simp [insertLe]
  | y :: ys, h => by
    rw [List.pairwise_cons] at h
    obtain ⟨hy, hys⟩ := h
    simp only [insertLe]
    split
    · rename_i hxy
      refine List.Pairwise.cons ?_ (List.Pairwise.cons hy hys)
      intro z hz
      rcases List.mem_cons.mp hz with rfl | hz
      · exact hxy
      · exact htrans x y z hxy (hy z hz)
    · rename_i hxy
      have hyx : le y x = true := by
        rcases Bool.or_eq_true_iff.mp (htotal x y) with h1 | h1
        · exact absurd h1 (by simpa using hxy)
        · exact h1
      refine List.Pairwise.cons ?_ (pairwise_insertLe htrans htotal x hys)
      intro z hz
      rcases (mem_insertLe le x z ys).mp hz with rfl | hz
      · exact hyx
      · exact hy z hz

theorem pairwise_sortLe {α : Type} {le : α → α → Bool}
    (htrans : ∀ a b c, le a b = true → le b c = true → le a c = true)
    (htotal : ∀ a b, (le a b || le b a) = true) :
    ∀ l : List α, List.Pairwise (fun a b => le a b = true) (sortLe le l)
  | [] => by simp [sortLe]
  | x :: xs => by
    simp only [sortLe]
    exact pairwise_insertLe htrans htotal x (pairwise_sortLe htrans htotal xs)

/-! ## C9: pagination -/

/-- C9: the listing is paginated with fixed page size 5, newest first, and
structural has-more controls: with exactly 6 offers in a direction, page 1
holds exactly 1 offer, offers a back control and no forward control; with
5 or more offers, page 0 holds exactly 5 offers, offers a forward control
and no back control (the initial listing likewise offers its forward
control); and every returned page is sorted newest-first. -/
theorem C9_pagination_controls (db : List ReadyOffer) (direction : String) :
    ((db.filter fun o => o.direction == direction).length = 6 →
      (get_ready_offers_by_direction db direction 5 5).length = 1 ∧
      kp_nav_controls 1 (get_ready_offers_by_direction db direction 5 5) =
        (true, false)) ∧
    (5 ≤ (db.filter fun o => o.direction == direction).length →
      (get_ready_offers_by_direction db direction 5 0).length = 5 ∧
      kp_nav_controls 0 (get_ready_offers_by_direction db direction 5 0) =
        (false, true) ∧
      initial_kp_has_next (get_ready_offers_by_direction db direction 5 0) = true) ∧
    (∀ limit offset : Nat, List.Pairwise (fun a b => b.created_at ≤ a.created_at)
      (get_ready_offers_by_direction db direction limit offset)) := by
  have hSlen : ∀ limit offset : Nat,
      (get_ready_offers_by_direction db direction limit offset).length =
        min limit ((db.filter fun o => o.direction == direction).length - offset) := by
    intro limit offset
    simp only [get_ready_offers_by_direction]
    rw [List.length_take, List.length_drop, length_sortLe]
  refine ⟨?_, ?_, ?_⟩
  · intro h6
    have h1 : (get_ready_offers_by_direction db direction 5 5).length = 1 := by
      rw [hSlen, h6]
      omega
    exact ⟨h1, by simp [kp_nav_controls, h1]⟩
  · intro h5
    have h1 : (get_ready_offers_by_direction db direction 5 0).length = 5 := by
      rw [hSlen]
      omega
    exact ⟨h1, by simp [kp_nav_controls, h1], by simp [initial_kp_has_next, h1]⟩
  · intro limit offset
    have htrans : ∀ a b c : ReadyOffer,
        decide (b.created_at ≤ a.created_at) = true →
        decide (c.created_at ≤ b.created_at) = true →
        decide (c.created_at ≤ a.created_at) = true := by
      intro a b c hab hbc
      simp only [decide_eq_true_eq] at *
      exact le_trans hbc hab
    have htotal : ∀ a b : ReadyOffer,
        (decide (b.created_at ≤ a.created_at) || decide (a.created_at ≤ b.created_at)) =
          true := by
      intro a b
      simp only [Bool.or_eq_true, decide_eq_true_eq]
      exact le_total b.created_at a.created_at
    have hp := pairwise_sortLe htrans htotal (db.filter fun o => o.direction == direction)
    have hp' : List.Pairwise (fun a b : ReadyOffer => b.created_at ≤ a.created_at)
        (sortLe (fun a b => decide (b.created_at ≤ a.created_at))
          (db.filter fun o => o.direction == direction)) :=
      hp.imp fun h => of_decide_eq_true h
    exact List.Pairwise.sublist
      ((List.take_sublist _ _).trans (List.drop_sublist _ _)) hp'

/-- C9 (witness): a direction holding exactly six offers, newest first. -/
theorem C9_pagination_witness :
    (get_ready_offers_by_direction
      [⟨1, "A", "", "d", "", "", 0, 0, 0, 1⟩, ⟨2, "B", "", "d", "", "", 0, 0, 0, 2⟩,
       ⟨3, "C", "", "d", "", "", 0, 0, 0, 3⟩, ⟨4, "D", "", "d", "", "", 0, 0, 0, 4⟩,
       ⟨5, "E", "", "d", "", "", 0, 0, 0, 5⟩, ⟨6, "F", "", "d", "", "", 0, 0, 0, 6⟩]
      "d" 5 5).length = 1 ∧
    kp_nav_controls 1 (get_ready_offers_by_direction
      [⟨1, "A", "", "d", "", "", 0, 0, 0, 1⟩, ⟨2, "B", "", "d", "", "", 0, 0, 0, 2⟩,
       ⟨3, "C", "", "d", "", "", 0, 0, 0, 3⟩, ⟨4, "D", "", "d", "", "", 0, 0, 0, 4⟩,
       ⟨5, "E", "", "d", "", "", 0, 0, 0, 5⟩, ⟨6, "F", "", "d", "", "", 0, 0, 0, 6⟩]
      "d" 5 5) = (true, false) ∧
    (get_ready_offers_by_direction
      [⟨1, "A", "", "d", "", "", 0, 0, 0, 1⟩, ⟨2, "B", "", "d", "", "", 0, 0, 0, 2⟩,
       ⟨3, "C", "", "d", "", "", 0, 0, 0, 3⟩, ⟨4, "D", "", "d", "", "", 0, 0, 0, 4⟩,
       ⟨5, "E", "", "d", "", "", 0, 0, 0, 5⟩, ⟨6, "F", "", "d", "", "", 0, 0, 0, 6⟩]
      "d" 5 0).length = 5 ∧
    kp_nav_controls 0 (get_ready_offers_by_direction
      [⟨1, "A", "", "d", "", "", 0, 0, 0, 1⟩, ⟨2, "B", "", "d", "", "", 0, 0, 0, 2⟩,
       ⟨3, "C", "", "d", "", "", 0, 0, 0, 3⟩, ⟨4, "D", "", "d", "", "", 0, 0, 0, 4⟩,
       ⟨5, "E", "", "d", "", "", 0, 0, 0, 5⟩, ⟨6, "F", "", "d", "", "", 0, 0, 0, 6⟩]
      "d" 5 0) = (false, true) := by
  have H := C9_pagination_controls
    [⟨1, "A", "", "d", "", "", 0, 0, 0, 1⟩, ⟨2, "B", "", "d", "", "", 0, 0, 0, 2⟩,
     ⟨3, "C", "", "d", "", "", 0, 0, 0, 3⟩, ⟨4, "D", "", "d", "", "", 0, 0, 0, 4⟩,
     ⟨5, "E", "", "d", "", "", 0, 0, 0, 5⟩, ⟨6, "F", "", "d", "", "", 0, 0, 0, 6⟩] "d"
  exact ⟨(H.1 (by decide)).1, (H.1 (by decide)).2,
    (H.2.1 (by decide)).1, (H.2.1 (by decide)).2.1⟩

/-! ## C7: rate limiter -/

/-- Running the limiter over chronological call times that all lie within
one window: with `st` prior recorded calls, the next calls are allowed until
the recorded total reaches the maximum, and the call after that is denied. -/
theorem run_calls_within (max_requests : Nat) (time_window : ℚ) :
    ∀ (ts st : List ℚ),
      List.Pairwise (fun a b => a ≤ b ∧ b - a < time_window) (st ++ ts) →
      st.length + ts.length = max_requests + 1 → ts ≠ [] →
      run_calls max_requests time_window st ts =
        List.replicate (max_requests - st.length) true ++ [false] := by
  intro ts
  induction ts with
  | nil => exact fun st _ _ hne => absurd rfl hne
  | cons t ts ih =>
    intro st hpw hlen _
    have hsplit := List.pairwise_append.mp hpw
    have hkeep : st.filter (fun r => decide (t - r < time_window)) = st := by
      apply List.filter_eq_self.mpr
      intro r hr
      exact decide_eq_true (hsplit.2.2 r hr t (List.mem_cons_self t ts)).2
    cases ts with
    | nil =>
      have hst : max_requests ≤ st.length := by
        simp only [List.length_cons, List.length_nil] at hlen
        omega
      have hia : is_allowed max_requests time_window st t = (false, st) := by
        simp only [is_allowed, hkeep]
        rw [if_pos hst]
      have hst' : max_requests - st.length = 0 := by omega
      simp [run_calls, hia, hst']
    | cons t2 ts2 =>
      have hlt : st.length < max_requests := by
        simp only [List.length_cons] at hlen
        omega
      have hia : is_allowed max_requests time_window st t = (true, st ++ [t]) := by
        simp only [is_allowed, hkeep]
        rw [if_neg (by omega : ¬ max_requests ≤ st.length)]
      have hpw' : List.Pairwise (fun a b => a ≤ b ∧ b - a < time_window)
          ((st ++ [t]) ++ t2 :: ts2) := by
        rw [List.append_assoc, List.singleton_append]
        exact hpw
      have hlen' : (st ++ [t]).length + (t2 :: ts2).length = max_requests + 1 := by
        simp only [List.length_append, List.length_cons, List.length_nil] at hlen ⊢
        omega
      have hrec := ih (st ++ [t]) hpw' hlen' (by simp)
      have hrep : max_requests - st.length =
          (max_requests - (st ++ [t]).length) + 1 := by
        simp only [List.length_append, List.length_cons, List.length_nil]
        omega
      have step : run_calls max_requests time_window st (t :: t2 :: ts2) =
          true :: run_calls max_requests time_window (st ++ [t]) (t2 :: ts2) := by
        simp only [run_calls, hia]
      rw [step, hrec, hrep, List.replicate_succ, List.cons_append]

/-- C7: for a limiter with maximum `max_requests` per window, a chronological
sequence of `max_requests + 1` calls for one identity, all within one window,
is allowed exactly `max_requests` times and denied on the last; and once the
window has elapsed past the oldest recorded call, the next call is allowed
again. -/
theorem C7_rate_limiter_window (max_requests : Nat) (time_window : ℚ)
    (ts : List ℚ) (st tl : List ℚ) (h0 now : ℚ)
    (hmax : 1 ≤ max_requests)
    (hts : List.Pairwise (fun a b => a ≤ b ∧ b - a < time_window) ts)
    (hlen : ts.length = max_requests + 1)
    (hst : st = h0 :: tl) (hstlen : st.length ≤ max_requests)
    (hold : time_window ≤ now - h0) :
    run_calls max_requests time_window [] ts =
      List.replicate max_requests true ++ [false] ∧
    (is_allowed max_requests time_window st now).1 = true := by
  constructor
  · have hne : ts ≠ [] := by
      intro h
      rw [h] at hlen
      simp at hlen
    have := run_calls_within max_requests time_window ts []
      (by simpa using hts) (by simpa using hlen) hne
    simpa using this
  · subst hst
    have hdrop : (decide (now - h0 < time_window)) = false := by
      simp only [decide_eq_false_iff_not, not_lt]
      linarith
    have hk : (tl.filter fun r => decide (now - r < time_window)).length ≤ tl.length :=
      List.length_filter_le _ _
    have hlt : ¬ max_requests ≤
        ((h0 :: tl).filter fun r => decide (now - r < time_window)).length := by
      rw [List.filter_cons, hdrop]
      simp only [Bool.false_eq_true, if_false]
      simp only [List.length_cons] at hstlen
      omega
    simp only [is_allowed]
    rw [if_neg hlt]

/-- C7 (witness): maximum 2 per 60-second window; calls at times 0, 1, 2
give allow, allow, deny; with calls recorded at 0 and 50, a call at 61 (61
seconds past the oldest) is allowed again. -/
theorem C7_rate_limiter_witness :
    run_calls 2 60 [] [0, 1, 2] = [true, true, false] ∧
    (is_allowed 2 60 [0, 50] 61).1 = true :=
  C7_rate_limiter_window 2 60 [0, 1, 2] [0, 50] [50] 0 61 (by norm_num)
    (by norm_num [List.pairwise_cons]) (by norm_num) rfl (by norm_num) (by norm_num)

/-! ## C3: reconciliation precedence -/

/-- C3 (counterexample): on the admin free-text-reply path the durable
store is never consulted.  A store record keyed by exactly the replied
message's id and the admin chat id (message 42 in chat 500) names client
100 with direction `storedir`, while the replied text carries conflicting
markers (client 200, direction name `TextDirName`); `handle_admin_response`
routes to client 200 with direction `textdir`, the text values, not the
store values. -/
theorem C3_admin_response_counterexample :
    (handle_admin_response
        [⟨100, "storedir", "StoreCo", "", "", 0, "", "", 0, "", "", "send",
          some 42, some "500"⟩]
        [("textdir", "TextDirName"), ("storedir", "StoreDirName")]
        [("textdir", 600), ("storedir", 500)]
        500 42
        "📋 НОВАЯ ЗАЯВКА (ID: 9)\n\n🆔 ID: 200\n🏗️ Направление: TextDirName\n🏢 Фирма: TextCo"
        77).map (fun r => (r.user_id, r.direction)) = some (200, some "textdir") ∧
    (get_client_application_by_admin_message
        [⟨100, "storedir", "StoreCo", "", "", 0, "", "", 0, "", "", "send",
          some 42, some "500"⟩]
        42 "500").map (fun a => (a.user_id, a.direction)) = some (100, "storedir") ∧
    ((200 : Int), (some "textdir" : Option String)) ≠ ((100 : Int), some "storedir") := by
  refine ⟨by decide, by decide, by decide⟩

/-- C3 (amended): the durable lookup keyed by admin-message-id and
admin-chat-id takes precedence over token and text values on the feedback
path and on the send-offer path — when the key resolves, the store
record's company name and direction are the ones used, whatever the token
or the replied text say, and the lookup is attempted before any text
scanning — but on the admin free-text-reply path no store lookup is
attempted at all: that resolution is a pure function of the scanned text
(and the chat mapping), identical for every store content and every
replied-message id. -/
theorem C3_store_precedence_amended
    (apps apps2 : List ClientApplication) (chats : List (String × Int))
    (directions : List (String × String)) (dataF dataS : Option String)
    (uid chat mmid rid rid2 kpmid midF oid cuid : Int)
    (partsF partsS : List String) (b a : ClientApplication)
    (offers : List ReadyOffer) (offer : ReadyOffer) (r : ReplyMsg) (text : String)
    (hq7 : parse_callback_data dataF 7 = some partsF)
    (hmid : pyInt (partsF.getD 3 "") = some midF)
    (hlook : get_client_application_by_admin_message apps midF (partsF.getD 2 "") =
      some b)
    (hbd1 : b.direction ≠ "unknown") (hbd2 : b.direction ≠ "")
    (hq4 : parse_callback_data dataS 4 = some partsS)
    (hoid : pyInt (partsS.getD 2 "") = some oid)
    (hcu : pyInt (partsS.getD 3 "") = some cuid)
    (hoffer : get_ready_offer_by_id offers oid = some offer)
    (hlook2 : get_client_application_by_admin_message apps r.message_id
      (toString chat) = some a) :
    (∃ rec fd, handle_feedback apps chats dataF uid =
      FeedbackOutcome.processed b.company_name rec fd ∧
      rec.direction = b.direction ∧ fd = some b.direction) ∧
    (handle_send_kp offers apps dataS chat mmid (some r) =
      SendKpOutcome.sent cuid (sanitize_client_info_kp a.company_name) a.direction
        (feedback_callback_data true chat r.message_id (toString oid) a.direction
          (client_short_of (sanitize_client_info_kp a.company_name)))
        (feedback_callback_data false chat r.message_id (toString oid) a.direction
          (client_short_of (sanitize_client_info_kp a.company_name)))) ∧
    (handle_admin_response apps directions chats chat rid text kpmid =
      handle_admin_response apps2 directions chats chat rid2 text kpmid) := by
  refine ⟨?_, ?_, ?_⟩
  · simp only [handle_feedback, hq7, hmid, hlook]
    rw [if_neg (by simp [hbd1, hbd2] : ¬ (b.direction = "unknown" ∨ b.direction = ""))]
    simp only [ne_eq, hbd1, hbd2, not_false_iff, and_self, if_true, if_neg hbd2]
    exact ⟨_, _, rfl, rfl, rfl⟩
  · simp only [handle_send_kp, hq4, hoid, hcu, hoffer, hlook2]
    simp
  · rfl

/-- C3 (witness): the amended precedence at concrete inputs: a store
record for message 10 in chat 300 naming client 900, company `Alfa`,
direction `metall`; a feedback token and a send-offer press whose replied
text even carries a conflicting firm marker — both resolve to the store
values. -/
theorem C3_store_precedence_witness :
    (∃ rec fd, handle_feedback
        [⟨900, "metall", "Alfa", "", "", 0, "", "", 0, "", "", "send",
          some 10, some "300"⟩]
        [("metall", 300)] (some "fb_yes_300_10_none_beton_Alfa1") 900 =
      FeedbackOutcome.processed "Alfa" rec fd ∧
      rec.direction = "metall" ∧ fd = some "metall") ∧
    (handle_send_kp [⟨5, "OffCo", "", "beton", "", "", 0, 0, 0, 1⟩]
        [⟨900, "metall", "Alfa", "", "", 0, "", "", 0, "", "", "send",
          some 10, some "300"⟩]
        (some "send_kp_5_900") 300 55 (some ⟨10, some "🏢 Фирма: Conflicting"⟩) =
      SendKpOutcome.sent 900 (sanitize_client_info_kp "Alfa") "metall"
        (feedback_callback_data true 300 10 (toString (5 : Int)) "metall"
          (client_short_of (sanitize_client_info_kp "Alfa")))
        (feedback_callback_data false 300 10 (toString (5 : Int)) "metall"
          (client_short_of (sanitize_client_info_kp "Alfa")))) ∧
    (handle_admin_response
        [⟨900, "metall", "Alfa", "", "", 0, "", "", 0, "", "", "send",
          some 10, some "300"⟩]
        [("metall", "Металл")] [("metall", 300)] 300 1 "🆔 ID: 444" 77 =
      handle_admin_response [] [("metall", "Металл")] [("metall", 300)] 300 2
        "🆔 ID: 444" 77) := by
  have H := C3_store_precedence_amended
    [⟨900, "metall", "Alfa", "", "", 0, "", "", 0, "", "", "send", some 10, some "300"⟩]
    [] [("metall", 300)] [("metall", "Металл")]
    (some "fb_yes_300_10_none_beton_Alfa1") (some "send_kp_5_900")
    900 300 55 1 2 77 10 5 900
    ["fb", "yes", "300", "10", "none", "beton", "Alfa1"]
    ["send", "kp", "5", "900"]
    ⟨900, "metall", "Alfa", "", "", 0, "", "", 0, "", "", "send", some 10, some "300"⟩
    ⟨900, "metall", "Alfa", "", "", 0, "", "", 0, "", "", "send", some 10, some "300"⟩
    [⟨5, "OffCo", "", "beton", "", "", 0, 0, 0, 1⟩]
    ⟨5, "OffCo", "", "beton", "", "", 0, 0, 0, 1⟩
    ⟨10, some "🏢 Фирма: Conflicting"⟩ "🆔 ID: 444"
    (by decide) (by decide) (by decide) (by decide) (by decide)
    (by decide) (by decide) (by decide) (by decide) (by decide)
  exact H

end Botpom
